import Mathlib

/-!
Shallow embedding of the session/credential/entry-point logic of
`src/smc/api/session.py` (smc-python).

Modelling conventions:
* Python `None`-able string attributes become `Option String`; Python
  truthiness of such a value (`if self._api_key:`) is `truthyStr`, which is
  false both for `None` and for the empty string, while an `is not None`
  check is `Option.isSome`.
* Python exceptions become `Except SMCError`; the network is modelled by
  transports whose `put` returns an explicit outcome (`NetOutcome`), since
  logout only inspects the status code and catches SSL/connection errors.
* `float(...)` on version strings is modelled as exact decimal parsing into
  `ℚ`; for version strings the induced order agrees with IEEE doubles
  unless two strings differ only beyond double precision.
-/

namespace Smc

/-- Python truthiness of an optional string: `None` and `""` are falsy. -/
def truthyStr : Option String → Bool
  | none => false
  | some s => !s.isEmpty

/-- Error kinds. `SMCConnectionError` and `ConfigLoadError` are imported by
`session.py` from `smc.api.exceptions` (not under `src/`); the taxonomy —
in particular that the connection error and the not-found error are distinct
kinds — is modelled from the spec (section 7 lists `ConfigLoadError`,
`ConnectionError` and `ResourceNotFound` as separate error kinds). -/
inductive SMCError where
  | configLoadError (msg : String)
  | smcConnectionError (msg : String)
  | resourceNotFound (msg : String)
  deriving Repr, DecidableEq

/-- True exactly when a result is a not-found failure. -/
def isNotFoundErr {α : Type} : Except SMCError α → Bool
  | .error (.resourceNotFound _) => true
  | _ => false

/-- True exactly when a result is a connection-error failure. -/
def isConnErr {α : Type} : Except SMCError α → Bool
  | .error (.smcConnectionError _) => true
  | _ => false

/-- Python `Credential.__init__(self, api_key=None, login=None, pwd=None)`:
three optional string attributes. -/
structure Credential where
  api_key : Option String := none
  login : Option String := none
  pwd : Option String := none

/-- Source `Credential.provider_name`: `if self._api_key: return 'login'` —
Python truthiness, so an empty-string api_key falls through to
`'lms_login'`. -/
def Credential.provider_name (c : Credential) : String :=
  if truthyStr c.api_key then "login" else "lms_login"

/-- Source `Credential.has_credentials`: `if self._api_key is not None: return True
elif self._login is not None and self._pwd is not None: return True` —
`is not None` checks, i.e. `Option.isSome`. -/
def Credential.has_credentials (c : Credential) : Bool :=
  if c.api_key.isSome then true
  else if c.login.isSome && c.pwd.isSome then true
  else false

/-- The dict shapes `Credential.get_credentials` can return:
`dict(api_key=...)`, `dict(login=..., pwd=...)` (values may be `None`), or
the empty dict. -/
inductive CredDict where
  | api_key (k : String)
  | login_pwd (l : Option String) (p : Option String)
  | empty
  deriving Repr, DecidableEq

/-- Source `Credential.get_credentials`: `if self.has_credentials:` then
`if self._api_key:` (truthiness) gives the api_key dict, else the
login/pwd dict (with whatever values are stored, possibly `None`);
otherwise the empty dict. -/
def Credential.get_credentials (c : Credential) : CredDict :=
  if c.has_credentials then
    if truthyStr c.api_key then .api_key (c.api_key.getD "")
    else .login_pwd c.login c.pwd
  else .empty

/-- Claim C1: for every construction of a `Credential`, `has_credentials`
is true iff an API key is present (non-`None`) or both login and password
are present (non-`None`); in particular it is false when all three are
absent. -/
theorem has_credentials_iff (k l p : Option String) :
    (Credential.mk k l p).has_credentials = (k.isSome || (l.isSome && p.isSome)) ∧
    (Credential.mk none none none).has_credentials = false := by
  constructor
  · cases k <;> cases l <;> cases p <;> rfl
  · rfl

/-- Claim C2 counterexample: the credential constructed with
`api_key = ""` (an API key is supplied, i.e. present/non-`None`) has
`provider_name = "lms_login"`, not the API-key tag `"login"`: the source
tests the api_key with Python truthiness (`if self._api_key:`), so an
empty-string key falls through to the login-form tag. -/
theorem provider_name_empty_key_counterexample :
    (Credential.mk (some "") (some "u") (some "p")).api_key.isSome = true ∧
    (Credential.mk (some "") (some "u") (some "p")).provider_name = "lms_login" ∧
    (Credential.mk (some "") (some "u") (some "p")).provider_name ≠ "login" := by
  refine ⟨rfl, rfl, ?_⟩
  decide

/-- Claim C2 (amended): `provider_name` is the API-key tag `"login"`
whenever a non-empty API key is present, regardless of login/password;
when the API key is absent or empty it is the login-form tag
`"lms_login"`; and it never depends on login/pwd. -/
theorem provider_name_spec (k l p : Option String) :
    (truthyStr k = true → (Credential.mk k l p).provider_name = "login") ∧
    (truthyStr k = false → (Credential.mk k l p).provider_name = "lms_login") ∧
    (Credential.mk k l p).provider_name = (Credential.mk k none none).provider_name := by
  refine ⟨fun h => ?_, fun h => ?_, rfl⟩
  · simp [Credential.provider_name, h]
  · simp [Credential.provider_name, h]

/-- Witness for C2's amended theorem at concrete credentials. -/
theorem provider_name_spec_witness :
    (Credential.mk (some "key") none none).provider_name = "login" ∧
    (Credential.mk none (some "u") (some "p")).provider_name = "lms_login" :=
  ⟨(provider_name_spec (some "key") none none).1 (by decide),
   (provider_name_spec none (some "u") (some "p")).2.1 (by decide)⟩

/-- Claim C8 counterexample: the credential constructed with
`api_key = ""`, no login and no pwd has no usable credentials (it is not
login/password based, and its API key is empty), yet `get_credentials`
returns the dict `{login: None, pwd: None}` — neither an api_key dict nor
the empty dict: `has_credentials` is true (`"" is not None`) while the
inner `if self._api_key:` is false by truthiness. -/
theorem get_credentials_empty_key_counterexample :
    (Credential.mk (some "") none none).get_credentials = CredDict.login_pwd none none ∧
    (Credential.mk (some "") none none).get_credentials ≠ CredDict.empty ∧
    (Credential.mk (some "") none none).login = none ∧
    (Credential.mk (some "") none none).pwd = none := by
  refine ⟨rfl, ?_, rfl, rfl⟩
  decide

/-- Claim C8 (amended): `get_credentials` returns `{api_key: k}` when a
non-empty API key `k` is present; returns `{login: ..., pwd: ...}` (values
as stored, possibly absent) when `has_credentials` holds but the API key is
absent or empty; and returns the empty dict when `has_credentials` is
false. -/
theorem get_credentials_spec (k l p : Option String) :
    (∀ s, k = some s → s ≠ "" →
      (Credential.mk k l p).get_credentials = CredDict.api_key s) ∧
    ((Credential.mk k l p).has_credentials = true → truthyStr k = false →
      (Credential.mk k l p).get_credentials = CredDict.login_pwd l p) ∧
    ((Credential.mk k l p).has_credentials = false →
      (Credential.mk k l p).get_credentials = CredDict.empty) := by
  refine ⟨fun s hk hs => ?_, fun hc hk => ?_, fun hc => ?_⟩
  · subst hk
    have ht : truthyStr (some s) = true := by
      cases he : s.isEmpty
      · simp [truthyStr, he]
      · exact absurd ((String.isEmpty_iff s).mp he) hs
    simp [Credential.get_credentials, Credential.has_credentials, ht]
  · simp [Credential.get_credentials, hc, hk]
  · simp [Credential.get_credentials, hc]

/-- Witness for C8's amended theorem at concrete credentials. -/
theorem get_credentials_spec_witness :
    (Credential.mk (some "key") (some "u") none).get_credentials = CredDict.api_key "key" ∧
    (Credential.mk none (some "u") (some "p")).get_credentials = CredDict.login_pwd (some "u") (some "p") ∧
    (Credential.mk none (some "u") none).get_credentials = CredDict.empty :=
  ⟨(get_credentials_spec (some "key") (some "u") none).1 "key" rfl (by decide),
   (get_credentials_spec none (some "u") (some "p")).2.1 rfl (by decide),
   (get_credentials_spec none (some "u") none).2.2 rfl⟩

/-- Value of a digit string read in base 10. -/
def digitsToNat (l : List Char) : Nat :=
  l.foldl (fun acc c => acc * 10 + (c.toNat - 48)) 0

/-- Split a character list at the first dot, when there is one. -/
def splitDot : List Char → List Char × Option (List Char)
  | [] => ([], none)
  | c :: cs =>
    if c = '.' then ([], some cs)
    else
      let p := splitDot cs
      (c :: p.1, p.2)

/-- Exact decimal value of a version string, modelling Python `float(i)`
in `get_api_version` for strings of the form `digits` or `digits.digits`
(the shapes version strings take); the value is exact rather than rounded
to binary floating point. -/
def pyFloat (s : String) : ℚ :=
  match splitDot s.toList with
  | (w, none) => (digitsToNat w : ℚ)
  | (w, some f) => (digitsToNat w : ℚ) + (digitsToNat f : ℚ) / (10 ^ f.length)

/-- Python binary max step: `max` keeps the current element on ties and
replaces it only by a strictly greater one. -/
def pyMax (acc v : ℚ) : ℚ :=
  if acc < v then v else acc

/-- Python `max([float(i) for i in versions])`: folds `max` over a
non-empty sequence, raises `ValueError` (here `none`) on an empty one. -/
def newestVersion (versions : List String) : Option ℚ :=
  match versions.map pyFloat with
  | [] => none
  | x :: xs => some (xs.foldl pyMax x)

/-- Return type of `get_api_version`: the requested version is returned as
the string that was passed in, while a resolved newest version is the
computed float. -/
abbrev StrOrFloat := String ⊕ ℚ

/-- Source `get_api_version(base_url, api_version, timeout, verify)` after
`available_api_versions` has produced the list `versions` (the network
fetch itself is outside the model; claim C3 quantifies over the available
list directly): computes the numeric maximum, keeps the requested version
only when it occurs in the list (string membership `api_version not in
versions`), and otherwise — including when no version was requested —
returns the numeric maximum. -/
def get_api_version (versions : List String) (api_version : Option String) :
    Option StrOrFloat :=
  match newestVersion versions with
  | none => none
  | some newest =>
    match api_version with
    | none => some (Sum.inr newest)
    | some v =>
      if versions.contains v then some (Sum.inl v) else some (Sum.inr newest)

/-- Reduction of `get_api_version` on a non-empty list of versions. -/
theorem get_api_version_cons (x : String) (xs : List String) (req : Option String) :
    get_api_version (x :: xs) req =
      match req with
      | none => some (Sum.inr ((xs.map pyFloat).foldl pyMax (pyFloat x)))
      | some v =>
        if (x :: xs).contains v then some (Sum.inl v)
        else some (Sum.inr ((xs.map pyFloat).foldl pyMax (pyFloat x))) := rfl

/-- Claim C3: for every non-empty list of available version strings and
every (optional) requested version, resolution returns the requested
version when it is present in the available set, and otherwise (requested
unset or not present) returns the numeric maximum of the available
versions, numeric comparison being by the (exactly modelled) float value
of the version string. -/
theorem get_api_version_spec (versions : List String) (req : Option String)
    (h : versions ≠ []) :
    (newestVersion versions).isSome = true ∧
    (∀ r, req = some r → versions.contains r = true →
      get_api_version versions req = some (Sum.inl r)) ∧
    (req = none →
      get_api_version versions req = (newestVersion versions).map Sum.inr) ∧
    (∀ r, req = some r → versions.contains r = false →
      get_api_version versions req = (newestVersion versions).map Sum.inr) := by
  obtain ⟨x, xs, rfl⟩ := List.exists_cons_of_ne_nil h
  refine ⟨rfl, fun r hr hc => ?_, fun hr => ?_, fun r hr hc => ?_⟩
  · subst hr
    rw [get_api_version_cons]
    simp only [hc, if_true]
  · subst hr
    rw [get_api_version_cons]
    rfl
  · subst hr
    rw [get_api_version_cons]
    simp only [hc, Bool.false_eq_true, if_false]
    rfl

/-- Witness for C3 at the concrete inputs of the claim: requested `"6.2"`
over `["6.1", "6.2", "6.5"]` yields the string `"6.2"`; requested `"9.9"`
and `None` both yield the numeric maximum `6.5`. -/
theorem get_api_version_spec_witness :
    get_api_version ["6.1", "6.2", "6.5"] (some "6.2") = some (Sum.inl "6.2") ∧
    get_api_version ["6.1", "6.2", "6.5"] (some "9.9") = some (Sum.inr (13/2 : ℚ)) ∧
    get_api_version ["6.1", "6.2", "6.5"] none = some (Sum.inr (13/2 : ℚ)) := by
  have h1 := (get_api_version_spec ["6.1", "6.2", "6.5"] (some "6.2")
    (by decide)).2.1 "6.2" rfl (by decide)
  have h2 := (get_api_version_spec ["6.1", "6.2", "6.5"] (some "9.9")
    (by decide)).2.2.2 "9.9" rfl (by decide)
  have h3 := (get_api_version_spec ["6.1", "6.2", "6.5"] none
    (by decide)).2.2.1 rfl
  have e1 : pyFloat "6.1" = 61/10 := by
    show pyFloat ⟨['6', '.', '1']⟩ = 61/10
    simp [pyFloat, splitDot, digitsToNat, String.toList]
    norm_num
  have e2 : pyFloat "6.2" = 31/5 := by
    show pyFloat ⟨['6', '.', '2']⟩ = 31/5
    simp [pyFloat, splitDot, digitsToNat, String.toList]
    norm_num
  have e5 : pyFloat "6.5" = 13/2 := by
    show pyFloat ⟨['6', '.', '5']⟩ = 13/2
    simp [pyFloat, splitDot, digitsToNat, String.toList]
    norm_num
  have hmax : newestVersion ["6.1", "6.2", "6.5"] = some (13/2 : ℚ) := by
    rw [show newestVersion ["6.1", "6.2", "6.5"] =
      some (pyMax (pyMax (pyFloat "6.1") (pyFloat "6.2")) (pyFloat "6.5")) from rfl]
    rw [e1, e2, e5]
    norm_num [pyMax]
  rw [h2, h3, hmax]
  exact ⟨h1, rfl, rfl⟩

/-- An entry-point record `{rel, href, type}` of the discovery document. -/
structure EntryPoint where
  rel : String
  href : String
  typ : String
  deriving Repr, DecidableEq

/-- The entry-point registry (class `Resource` of `smc.api.entry_point`,
held in `Session._resource`): entries keyed by `rel`. -/
structure Resource where
  entries : List EntryPoint
  deriving Repr, DecidableEq

/-- Modelled from the spec: `smc/api/entry_point.py` is not under `src/`.
Spec 4.3, `get(name)` "fails with a 'not found' condition if no entry
exists for `name`, or if the registry is empty altogether (distinguished
from 'empty' with a specific guidance message: likely no valid session
exists)". -/
def Resource.get (r : Resource) (name : String) : Except SMCError String :=
  if r.entries.isEmpty then
    .error (.resourceNotFound "No entry points: likely no valid session exists.")
  else
    match r.entries.find? (fun e => e.rel == name) with
    | some e => .ok e.href
    | none => .error (.resourceNotFound ("Entry point not found: " ++ name))

/-- Outcome of a transport-level request: an HTTP status code, or one of
the two exception classes that `logout` catches. -/
inductive NetOutcome where
  | status (code : Nat)
  | sslError (msg : String)
  | connectionError (msg : String)

/-- The `verify` value accepted by requests: a boolean or a CA-bundle
path. -/
inductive Verify where
  | flag (b : Bool)
  | path (s : String)
  deriving Repr, DecidableEq

/-- An authenticated `requests` session object (per-domain transport
handle): the behaviour of its `put` on a URL, and the `verify` attribute
that `_get_login_params` reads back. -/
structure Transport where
  put : String → NetOutcome
  verify : Verify

/-- Mirror of `Session.__init__`: the attributes the claims touch, with
the source's defaults (`_connection` and logging configuration omitted;
`sessions` is the `{'domain': session}` dict as an insertion-ordered
association list). -/
structure Session where
  api_version : Option StrOrFloat := none
  session : Option Transport := none
  url : Option String := none
  timeout : Nat := 10
  domain : String := "Shared Domain"
  extra_args : List (String × String) := []
  resource : Resource := ⟨[]⟩
  credential : Credential := {}
  sessions : List (String × Transport) := []

/-- Source `Session.entry_points` property: `if not len(self._resource):`
raise `SMCConnectionError` with the guidance message, else return the
resource. -/
def Session.entry_points (st : Session) : Except SMCError Resource :=
  if st.resource.entries.length = 0 then
    .error (.smcConnectionError
      "No entry points found, it is likely there is no valid login session.")
  else .ok st.resource

/-- Program-level lookup of an entry point by name,
`session.entry_points.get(name)`: the `entry_points` property runs first
and may raise before `get` is reached. -/
def Session.get_entry_point (st : Session) (name : String) :
    Except SMCError String :=
  match st.entry_points with
  | .error e => .error e
  | .ok r => r.get name

/-- A freshly constructed `Session()`, i.e. the state before any login. -/
def emptySession : Session := {}

/-- Claim C4 counterexample: looking up any entry point on a session with
an empty registry (before any successful login) raises
`SMCConnectionError` — the connection-error kind, not a not-found kind —
though its message does indicate that likely no valid login session
exists. -/
theorem entry_point_before_login_counterexample :
    Session.get_entry_point emptySession "logout" =
      .error (.smcConnectionError
        "No entry points found, it is likely there is no valid login session.") ∧
    isNotFoundErr (Session.get_entry_point emptySession "logout") = false ∧
    isConnErr (Session.get_entry_point emptySession "logout") = true :=
  ⟨rfl, rfl, rfl⟩

/-- Claim C4 (amended): accessing the entry-point registry through the
session (get of any name) while the registry is empty fails with a
connection-error condition whose message indicates that likely no valid
login session exists, rather than returning a value or failing some other
way. -/
theorem entry_point_before_login (st : Session) (name : String)
    (h : st.resource.entries = []) :
    Session.get_entry_point st name =
      .error (.smcConnectionError
        "No entry points found, it is likely there is no valid login session.") := by
  simp [Session.get_entry_point, Session.entry_points, h]

/-- Witness for C4's amended theorem at the freshly constructed session. -/
theorem entry_point_before_login_witness :
    Session.get_entry_point emptySession "current_user" =
      .error (.smcConnectionError
        "No entry points found, it is likely there is no valid login session.") :=
  entry_point_before_login emptySession "current_user" rfl

/-- One pass of the `logout` loop over the stored per-domain sessions.
Per iteration the source evaluates `self.entry_points` (a property that
may raise `SMCConnectionError`) and `.get('logout')` (which may raise a
not-found error); neither is caught by the `except` clauses, which catch
only the SSL and connection errors coming from the `put`. The `put`
outcome itself is only logged, whatever it is. The returned list records
the domains whose logout request was actually attempted. -/
def logoutLoop (st : Session) :
    List (String × Transport) → List String → Except SMCError Unit × List String
  | [], acc => (.ok (), acc)
  | (d, tr) :: rest, acc =>
    match st.entry_points with
    | .error e => (.error e, acc)
    | .ok r =>
      match r.get "logout" with
      | .error e => (.error e, acc)
      | .ok href =>
        let _ := tr.put href
        logoutLoop st rest (acc ++ [d])

/-- Source `Session.logout`: `if self._sessions:` iterate over all stored
domain sessions issuing the logout `put` best-effort, then
`self.entry_points.clear()` (again through the raising property) and
`self._session = None`. An empty per-domain map makes the call a no-op.
The second component records the domains whose request was attempted. -/
def Session.logout (st : Session) : Except SMCError Session × List String :=
  if st.sessions.isEmpty then (.ok st, [])
  else
    match logoutLoop st st.sessions [] with
    | (.ok _, att) =>
      match st.entry_points with
      | .error e => (.error e, att)
      | .ok _ => (.ok { st with resource := ⟨[]⟩, session := none }, att)
    | (.error e, att) => (.error e, att)

/-- If the registry resolves some entry point, the registry is non-empty
and the `entry_points` property succeeds. -/
theorem entry_points_ok_of_get (st : Session) (name href : String)
    (h : st.resource.get name = .ok href) :
    st.entry_points = .ok st.resource := by
  have hne : st.resource.entries.length ≠ 0 := by
    intro h0
    have hnil : st.resource.entries = [] := List.length_eq_zero.mp h0
    simp [Resource.get, hnil] at h
  simp [Session.entry_points, hne]

/-- When the registry resolves `logout`, the loop attempts every stored
domain, in order, and completes without raising. -/
theorem logoutLoop_ok (st : Session) (href : String)
    (h : st.resource.get "logout" = .ok href) :
    ∀ l acc, logoutLoop st l acc = (.ok (), acc ++ l.map Prod.fst) := by
  have hep := entry_points_ok_of_get st "logout" href h
  intro l
  induction l with
  | nil => intro acc; simp [logoutLoop]
  | cons hd tl ih =>
    intro acc
    obtain ⟨d, tr⟩ := hd
    simp [logoutLoop, hep, h, ih]

/-- Computation of a successful `logout`: registry cleared, current
transport unset, per-domain map untouched, every domain attempted. -/
theorem logout_ok_eq (st : Session) (href : String)
    (h1 : st.sessions ≠ []) (h2 : st.resource.get "logout" = .ok href) :
    Session.logout st =
      (.ok { st with resource := ⟨[]⟩, session := none },
       st.sessions.map Prod.fst) := by
  have hep := entry_points_ok_of_get st "logout" href h2
  have hloop := logoutLoop_ok st href h2 st.sessions []
  have hne : st.sessions.isEmpty = false := by
    simpa [List.isEmpty_iff] using h1
  simp [Session.logout, hne, hloop, hep]

/-- Claim C5: on a session holding at least one per-domain transport
handle, with a registry that resolves the `logout` entry point, `logout()`
attempts the logout request for every stored domain — whatever status each
transport returns and whether it raises an SSL or connection error (these
are swallowed, not raised) — and completes without raising, clearing the
entry-point registry and unsetting the current transport handle. The
transports are universally quantified, so in particular one domain may
answer 204 while another raises a connection error. -/
theorem logout_best_effort (st : Session) (href : String)
    (h1 : st.sessions ≠ []) (h2 : st.resource.get "logout" = .ok href) :
    Session.logout st =
      (.ok { st with resource := ⟨[]⟩, session := none },
       st.sessions.map Prod.fst) :=
  logout_ok_eq st href h1 h2

/-- Transport answering 204 to every request. -/
def tr204 : Transport := ⟨fun _ => .status 204, .flag true⟩

/-- Transport raising a connection error on every request. -/
def trConnRefused : Transport :=
  ⟨fun _ => .connectionError "connection refused", .flag true⟩

/-- A logged-in session with two domains: `Shared Domain`, whose transport
answers 204 on logout, and `Eng`, whose transport raises a connection
error. -/
def twoDomainSession : Session :=
  { session := some tr204,
    url := some "http://1.2.3.4:8082",
    api_version := some (Sum.inl "6.5"),
    credential := ⟨some "key", none, none⟩,
    resource := ⟨[⟨"logout", "/6.5/logout", "logout"⟩]⟩,
    sessions := [("Shared Domain", tr204), ("Eng", trConnRefused)] }

/-- Witness for C5 at the concrete two-domain session of the claim: one
domain succeeds with 204, the other raises a connection error, and
`logout()` still attempts both and completes without raising. -/
theorem logout_best_effort_witness :
    Session.logout twoDomainSession =
      (.ok { twoDomainSession with resource := ⟨[]⟩, session := none },
       ["Shared Domain", "Eng"]) :=
  logout_best_effort twoDomainSession "/6.5/logout"
    (by simp [twoDomainSession]) rfl

/-- Claim C10: after a successful `logout()` the per-domain session map is
retained even though the registry is cleared and the current transport is
unset; a second consecutive `logout()` is therefore not a no-op — it
raises the connection-error kind from the empty-registry `entry_points`
lookup, attempting no per-domain request (the attempted list is empty). -/
theorem logout_not_idempotent (st : Session) (href : String)
    (h1 : st.sessions ≠ []) (h2 : st.resource.get "logout" = .ok href) :
    Session.logout st =
      (.ok { st with resource := ⟨[]⟩, session := none },
       st.sessions.map Prod.fst) ∧
    ({ st with resource := ⟨[]⟩, session := none } : Session).sessions =
      st.sessions ∧
    Session.logout { st with resource := ⟨[]⟩, session := none } =
      (.error (.smcConnectionError
        "No entry points found, it is likely there is no valid login session."),
       []) := by
  refine ⟨logout_ok_eq st href h1 h2, rfl, ?_⟩
  cases hs : st.sessions with
  | nil => exact absurd hs h1
  | cons hd tl =>
    obtain ⟨d, tr⟩ := hd
    simp [Session.logout, hs, logoutLoop, Session.entry_points]

/-- Witness for C10 at the concrete two-domain session: the first logout
succeeds and keeps both stored domain transports, the second raises the
connection error without attempting any request. -/
theorem logout_not_idempotent_witness :
    Session.logout twoDomainSession =
      (.ok { twoDomainSession with resource := ⟨[]⟩, session := none },
       ["Shared Domain", "Eng"]) ∧
    ({ twoDomainSession with resource := ⟨[]⟩, session := none } : Session).sessions =
      twoDomainSession.sessions ∧
    Session.logout { twoDomainSession with resource := ⟨[]⟩, session := none } =
      (.error (.smcConnectionError
        "No entry points found, it is likely there is no valid login session."),
       []) := by
  have h := logout_not_idempotent twoDomainSession "/6.5/logout"
    (by simp [twoDomainSession]) rfl
  simpa [twoDomainSession] using h

/-- The parameter record built by `Session._get_login_params` to replay
`login()`: url, api_version, timeout, the current transport's verify
value, domain, the credential dict and the retained extra args. -/
structure LoginParams where
  url : Option String
  api_version : Option StrOrFloat
  timeout : Nat
  verify : Verify
  domain : String
  credentials : CredDict
  extra_args : List (String × String)
  deriving Repr, DecidableEq

/-- Source `Session._get_login_params`: reads `self._session.verify`, so a
missing current transport makes it fail (`AttributeError` on `None`,
modelled as `none`). -/
def Session.get_login_params (st : Session) : Option LoginParams :=
  match st.session with
  | none => none
  | some tr =>
    some ⟨st.url, st.api_version, st.timeout, tr.verify, st.domain,
      st.credential.get_credentials, st.extra_args⟩

/-- Source `Session.refresh`: `if self.session and
self.credential.has_credentials and self.url:` replay
`self.login(**self._get_login_params())` — the replayed login invocation
is the returned value; the network effects of `login` itself are outside
`refresh`, so the error branch performs no network call at all — else
raise `SMCConnectionError`. The guard uses Python truthiness, so a
present-but-empty URL string also fails. -/
def Session.refresh (st : Session) : Except SMCError LoginParams :=
  match st.session with
  | some tr =>
    if st.credential.has_credentials && truthyStr st.url then
      .ok ⟨st.url, st.api_version, st.timeout, tr.verify, st.domain,
        st.credential.get_credentials, st.extra_args⟩
    else
      .error (.smcConnectionError "Session expired and attempted refresh failed.")
  | none =>
    .error (.smcConnectionError "Session expired and attempted refresh failed.")

/-- Claim C6: `refresh()` with a missing current transport, no valid
credentials, or a missing (or empty) URL — in particular before any
successful login — fails immediately with the connection-error kind,
producing no login invocation and hence zero network calls; with all three
present it replays `login()` with exactly the previously captured
parameters. -/
theorem refresh_spec (st : Session) :
    ((st.session = none ∨ st.credential.has_credentials = false ∨
        truthyStr st.url = false) →
      Session.refresh st =
        .error (.smcConnectionError
          "Session expired and attempted refresh failed.")) ∧
    (st.session.isSome = true → st.credential.has_credentials = true →
      truthyStr st.url = true →
      ∃ p, Session.get_login_params st = some p ∧ Session.refresh st = .ok p) := by
  constructor
  · intro h
    match hs : st.session with
    | none => simp [Session.refresh, hs]
    | some tr =>
      rcases h with h | h | h
      · rw [hs] at h
        exact absurd h (by simp)
      · simp [Session.refresh, hs, h]
      · simp [Session.refresh, hs, h]
  · intro hs hc hu
    match hst : st.session with
    | none => rw [hst] at hs; simp at hs
    | some tr =>
      refine ⟨⟨st.url, st.api_version, st.timeout, tr.verify, st.domain,
        st.credential.get_credentials, st.extra_args⟩, ?_, ?_⟩
      · simp [Session.get_login_params, hst]
      · simp [Session.refresh, hst, hc, hu]

/-- Witness for C6: the freshly constructed session (no transport, no
credentials, no URL) fails with the connection-error kind; the logged-in
two-domain session replays login with its captured parameters. -/
theorem refresh_spec_witness :
    Session.refresh emptySession =
      .error (.smcConnectionError
        "Session expired and attempted refresh failed.") ∧
    Session.refresh twoDomainSession =
      .ok ⟨some "http://1.2.3.4:8082", some (Sum.inl "6.5"), 10, .flag true,
        "Shared Domain", CredDict.api_key "key", []⟩ := by
  have h1 := (refresh_spec emptySession).1 (Or.inl rfl)
  have h2 := (refresh_spec twoDomainSession).2 rfl rfl rfl
  obtain ⟨p, hp, hr⟩ := h2
  have hpv : p = ⟨some "http://1.2.3.4:8082", some (Sum.inl "6.5"), 10, .flag true,
      "Shared Domain", CredDict.api_key "key", []⟩ := by
    have hcal : Session.get_login_params twoDomainSession =
        some ⟨some "http://1.2.3.4:8082", some (Sum.inl "6.5"), 10, .flag true,
          "Shared Domain", CredDict.api_key "key", []⟩ := rfl
    exact Option.some.inj ((hp.symm.trans hcal))
  exact ⟨h1, hpv ▸ hr⟩

/-- Outcome of `switch_domain`: state unchanged (already in the domain); a
pointer switch to a stored per-domain transport; a single replayed login
scoped to the new domain; or the failure of `_get_login_params` when no
current transport exists. -/
inductive SwitchResult where
  | noop
  | switched (st : Session)
  | loginCall (p : LoginParams)
  | attrError

/-- Number of login invocations a `switch_domain` outcome performs. -/
def SwitchResult.loginCount : SwitchResult → Nat
  | .loginCall _ => 1
  | _ => 0

/-- Python `self._sessions.get(domain)` on the `{'domain': session}`
dict. -/
def lookupDomain (l : List (String × Transport)) (d : String) : Option Transport :=
  (l.find? (fun p => p.1 == d)).map Prod.snd

/-- Source `Session.switch_domain(domain)`: nothing when already in that
domain; when the domain is not in the per-domain map, replay login with
the captured parameters updated with the new domain
(`credentials.update(domain=domain)`); otherwise point `_session` at the
stored transport and set `_domain`. -/
def Session.switch_domain (st : Session) (domain : String) : SwitchResult :=
  if st.domain == domain then .noop
  else
    match lookupDomain st.sessions domain with
    | none =>
      match st.get_login_params with
      | some p => .loginCall { p with domain := domain }
      | none => .attrError
    | some tr => .switched { st with session := some tr, domain := domain }

/-- Claim C7: `switch_domain(domain)` is a no-op when the domain equals
the current one; when a transport for the domain exists in the per-domain
map it only switches the current pointer (zero login calls); when none
exists it performs exactly one login, scoped to the new domain, with the
previously captured parameters. -/
theorem switch_domain_spec (st : Session) (d : String) :
    (st.domain = d → Session.switch_domain st d = .noop ∧
      (Session.switch_domain st d).loginCount = 0) ∧
    (st.domain ≠ d → ∀ tr, lookupDomain st.sessions d = some tr →
      Session.switch_domain st d =
        .switched { st with session := some tr, domain := d } ∧
      (Session.switch_domain st d).loginCount = 0) ∧
    (st.domain ≠ d → lookupDomain st.sessions d = none →
      ∀ p, Session.get_login_params st = some p →
        Session.switch_domain st d = .loginCall { p with domain := d } ∧
        (Session.switch_domain st d).loginCount = 1) := by
  refine ⟨fun h => ?_, fun h tr htr => ?_, fun h hn p hp => ?_⟩
  · constructor <;> simp [Session.switch_domain, h, SwitchResult.loginCount]
  · have hb : (st.domain == d) = false := by simp [h]
    constructor <;>
      simp [Session.switch_domain, hb, htr, SwitchResult.loginCount]
  · have hb : (st.domain == d) = false := by simp [h]
    constructor <;>
      simp [Session.switch_domain, hb, hn, hp, SwitchResult.loginCount]

/-- Witness for C7 on the two-domain session: switching to the current
domain is a no-op, switching to the stored `Eng` domain only moves the
pointer, switching to the unknown `Ops` domain produces exactly one login
invocation scoped to `Ops`. -/
theorem switch_domain_spec_witness :
    Session.switch_domain twoDomainSession "Shared Domain" = .noop ∧
    Session.switch_domain twoDomainSession "Eng" =
      .switched { twoDomainSession with
        session := some trConnRefused
        domain := "Eng" } ∧
    Session.switch_domain twoDomainSession "Ops" =
      .loginCall ⟨some "http://1.2.3.4:8082", some (Sum.inl "6.5"), 10,
        .flag true, "Ops", CredDict.api_key "key", []⟩ := by
  have h1 := ((switch_domain_spec twoDomainSession "Shared Domain").1 rfl).1
  have h2 := (switch_domain_spec twoDomainSession "Eng").2.1 (by decide)
    trConnRefused rfl
  have h3 := (switch_domain_spec twoDomainSession "Ops").2.2 (by decide) rfl
    ⟨some "http://1.2.3.4:8082", some (Sum.inl "6.5"), 10, .flag true,
      "Shared Domain", CredDict.api_key "key", []⟩ rfl
  exact ⟨h1, h2.1, h3.1⟩

/-- The retry policy object built by `set_retry_on_busy` (urllib3
`Retry`): total attempts, backoff factor, status list (the `frozenset` is
modelled as the list it is built from) and eligible methods. -/
structure Retry where
  total : Nat
  backoff_factor : ℚ
  status_forcelist : List Nat
  method_whitelist : List String
  deriving Repr, DecidableEq

/-- A retry policy together with the URL schemes it is mounted on. -/
structure RetryMount where
  retry : Retry
  mounted_on : List String
  deriving Repr, DecidableEq

/-- Source `Session.set_retry_on_busy(total=5, backoff_factor=0.1,
status_forcelist=None, **kwargs)`: only acts when a current session
exists; `method_whitelist = kwargs.pop('method_whitelist', []) or
['GET', 'POST', 'PUT']` and `status_forcelist = frozenset(status_forcelist)
if status_forcelist else frozenset([503])` are Python-truthiness tests, so
an empty caller list falls back to the default; one adapter is mounted per
scheme in `('http://', 'https://')`. -/
def Session.set_retry_on_busy (st : Session) (total : Nat)
    (backoff_factor : ℚ) (status_forcelist : Option (List Nat))
    (method_whitelist : Option (List String)) : Option RetryMount :=
  if st.session.isSome then
    let mw := match method_whitelist with
      | some l => if l.isEmpty then ["GET", "POST", "PUT"] else l
      | none => ["GET", "POST", "PUT"]
    let sf := match status_forcelist with
      | some l => if l.isEmpty then [503] else l
      | none => [503]
    some ⟨⟨total, backoff_factor, sf, mw⟩, ["http://", "https://"]⟩
  else none

/-- Invocation of `set_retry_on_busy` with the source's default
arguments. -/
def Session.set_retry_on_busy_default (st : Session) : Option RetryMount :=
  st.set_retry_on_busy 5 (1/10) none none

/-- Claim C9 counterexample: a caller-supplied empty status list does not
override the default — the mounted policy still retries exactly on 503 —
because the source guards with Python truthiness (`if status_forcelist`),
under which an empty list is falsy; so "caller-supplied values override
each of these defaults" fails as stated. -/
theorem set_retry_on_busy_counterexample :
    Session.set_retry_on_busy twoDomainSession 5 (1/10) (some []) none =
      some ⟨⟨5, 1/10, [503], ["GET", "POST", "PUT"]⟩,
        ["http://", "https://"]⟩ ∧
    ([] : List Nat) ≠ [503] := ⟨rfl, by decide⟩

/-- Claim C9 (amended): when a session exists, the default invocation
mounts total 5, backoff factor 0.1, status set exactly {503} and methods
GET, POST and PUT, on both the insecure and the secure scheme;
caller-supplied total, backoff factor and non-empty status/method lists
override those defaults (empty lists fall back to the defaults by Python
truthiness). -/
theorem set_retry_on_busy_spec (st : Session) (h : st.session.isSome = true) :
    Session.set_retry_on_busy_default st =
      some ⟨⟨5, 1/10, [503], ["GET", "POST", "PUT"]⟩,
        ["http://", "https://"]⟩ ∧
    (∀ total bf sf mw, sf ≠ [] → mw ≠ [] →
      Session.set_retry_on_busy st total bf (some sf) (some mw) =
        some ⟨⟨total, bf, sf, mw⟩, ["http://", "https://"]⟩) := by
  constructor
  · simp [Session.set_retry_on_busy_default, Session.set_retry_on_busy, h]
  · intro total bf sf mw hsf hmw
    have h1 : sf.isEmpty = false := by simpa [List.isEmpty_iff] using hsf
    have h2 : mw.isEmpty = false := by simpa [List.isEmpty_iff] using hmw
    simp [Session.set_retry_on_busy, h, h1, h2]

/-- Witness for C9's amended theorem: defaults and a non-empty override on
the concrete logged-in session. -/
theorem set_retry_on_busy_spec_witness :
    Session.set_retry_on_busy_default twoDomainSession =
      some ⟨⟨5, 1/10, [503], ["GET", "POST", "PUT"]⟩,
        ["http://", "https://"]⟩ ∧
    Session.set_retry_on_busy twoDomainSession 3 (1/2) (some [500, 503])
        (some ["GET"]) =
      some ⟨⟨3, 1/2, [500, 503], ["GET"]⟩, ["http://", "https://"]⟩ := by
  have h := set_retry_on_busy_spec twoDomainSession rfl
  exact ⟨h.1, h.2 3 (1/2) [500, 503] ["GET"] (by decide) (by decide)⟩

end Smc
